import Mathlib

/-!
# Verification of the pulsegen.io processing core

A shallow embedding of the processing pipeline of the pulsegen.io
repository, together with proofs about it:

* `server/services/videoProcessor.js` — `extractMetadata`,
  `generateThumbnail`, `processVideo`, `ProcessingQueue`;
* `server/services/sensitivityAnalyzer.js` — `analyzeSensitivity`;
* the `POST /api/videos/:id/reprocess` and `POST /api/videos/upload`
  handlers of the video routes file;
* `server/routes/stream.js` — `GET /api/stream/:id`.

External collaborators (MongoDB, ffmpeg/ffprobe subprocesses, socket.io)
are modelled at their interface boundary: the durable store for one item
is an `Option Video`, subprocess outcomes are explicit inputs
(`SubprocResult`), and emitted socket events are collected in a list.
Fallible operations (`video.save()`, `Video.findById`,
`Video.findByIdAndUpdate`) may throw; which of them throws during a run,
and with what message, is recorded in a `Faults` record that the
embedded `processVideo` consumes.
-/

/-- `status` field of the Video mongoose schema
(`enum: ['pending', 'processing', 'completed', 'failed']`). -/
inductive VideoStatus where
  | pending
  | processing
  | completed
  | failed
  deriving DecidableEq, Repr

/-- `processingStage` field of the Video schema (`enum: ['queued',
'extracting_metadata', 'generating_thumbnail', 'analyzing_content',
'finalizing', 'done', 'error']`). -/
inductive Stage where
  | queued
  | extracting_metadata
  | generating_thumbnail
  | analyzing_content
  | finalizing
  | done
  | error
  deriving DecidableEq, Repr

/-- `classification` of the `sensitivityResultSchema`
(`enum: ['safe', 'flagged', 'pending']`). -/
inductive Classification where
  | safe
  | flagged
  | pending
  deriving DecidableEq, Repr

/-- The `details` sub-document of a sensitivity result (a Mixed field in
the schema): `{}` by default, `{ error: message }` on the analyzer's
internal-error path, or the mock analysis payload. -/
inductive SensDetails where
  | empty
  | errorDetail (message : String)
  | analysisDetail (framesAnalyzed : Nat) (audioAnalyzed : Bool)
      (processingTime : Nat) (modelVersion : String)
  deriving DecidableEq, Repr

/-- The `sensitivityResult` sub-document of a Video. -/
structure SensitivityResult where
  classification : Classification
  confidence : Nat
  flags : List String
  analyzedAt : Option Nat
  details : SensDetails
  deriving DecidableEq, Repr

/-- The `resolution` sub-document of a Video. -/
structure Resolution where
  width : Nat
  height : Nat
  deriving DecidableEq, Repr

/-- The codec/bitrate data merged into `video.metadata` by the pipeline. -/
structure CodecInfo where
  codec : String
  bitrate : Nat
  deriving DecidableEq, Repr

/-- The fields of a MediaItem record (mongoose `Video` document) that the
processing core reads or writes. -/
structure Video where
  title : String
  mimetype : String
  size : Nat
  duration : Nat
  resolution : Resolution
  status : VideoStatus
  processingProgress : Nat
  processingStage : Stage
  processingError : Option String
  sensitivityResult : SensitivityResult
  thumbnailPath : Option String
  filePath : String
  metadata : Option CodecInfo
  views : Nat
  deriving DecidableEq, Repr

/-- A socket.io event emitted through `emitVideoProgress` (event name
`video:processing:progress`). The error path of `processVideo` also uses
this channel, with `isError := true`; the done event additionally
carries the sensitivity result. -/
structure Event where
  videoId : String
  status : VideoStatus
  stage : Stage
  progress : Nat
  message : String
  isError : Bool := false
  sensitivityResult : Option SensitivityResult := none
  deriving DecidableEq, Repr

/-- Outcome of a spawned subprocess, as observed by the callbacks in
`extractMetadata` / `generateThumbnail`: the `'error'` event fired, the
process closed with a non-zero code, or it closed with code 0 producing
`out`. -/
inductive SubprocResult (α : Type) where
  | procError
  | nonZeroExit
  | ok (out : α)
  deriving DecidableEq, Repr

/-- The numeric/codec fields read out of ffprobe's JSON
(`format.duration`, stream `width`/`height`/`codec_name`,
`format.bit_rate`); `none` models an absent or unparseable field, which
the `|| 0` / `|| 'unknown'` defaults replace. -/
structure FFprobeData where
  duration : Option Nat
  width : Option Nat
  height : Option Nat
  codec : Option String
  bitrate : Option Nat
  deriving DecidableEq, Repr

/-- Metadata returned by `extractMetadata`. -/
structure VideoMetadata where
  duration : Nat
  width : Nat
  height : Nat
  codec : String
  bitrate : Nat
  deriving DecidableEq, Repr

/-- The default metadata `extractMetadata` resolves with when ffprobe
fails or its output cannot be parsed. -/
def defaultMetadata : VideoMetadata :=
  { duration := 0, width := 0, height := 0, codec := "unknown", bitrate := 0 }

/-- `extractMetadata` from `videoProcessor.js`: on subprocess error or
non-zero exit it resolves with the default metadata; on exit code 0 it
parses the JSON output (an unparseable output, `ok none`, again gives
the default) and applies the `|| 0` / `|| 'unknown'` fallbacks
field-by-field. It never rejects. -/
def extractMetadata : SubprocResult (Option FFprobeData) → VideoMetadata
  | .procError => defaultMetadata
  | .nonZeroExit => defaultMetadata
  | .ok none => defaultMetadata
  | .ok (some d) =>
      { duration := d.duration.getD 0, width := d.width.getD 0,
        height := d.height.getD 0, codec := d.codec.getD "unknown",
        bitrate := d.bitrate.getD 0 }

/-- `generateThumbnail` from `videoProcessor.js`: resolves with the
output path on success and with `null` on subprocess error or non-zero
exit. It never rejects. -/
def generateThumbnail (outputPath : String) : SubprocResult Unit → Option String
  | .ok _ => some outputPath
  | .procError => none
  | .nonZeroExit => none

/-- The thumbnail output path `processVideo` builds for a video id
(`path.join(process.cwd(), 'uploads', 'thumbnails', videoId + '.jpg')`;
the working directory is left implicit). -/
def thumbnailPathOf (videoId : String) : String :=
  "uploads/thumbnails/" ++ videoId ++ ".jpg"

/-- Helper building a non-error progress event. -/
def progressEvent (videoId : String) (status : VideoStatus) (stage : Stage)
    (progress : Nat) (message : String) : Event :=
  { videoId := videoId, status := status, stage := stage,
    progress := progress, message := message }

/-- The four intermediate events `analyzeSensitivity` emits while the
simulated analysis advances (progress 55, 65, 75, 85, all during the
`analyzing_content` stage). -/
def sensitivityEvents (videoId : String) : List Event :=
  [progressEvent videoId .processing .analyzing_content 55
      "Extracting frames for analysis...",
   progressEvent videoId .processing .analyzing_content 65
      "Analyzing video frames...",
   progressEvent videoId .processing .analyzing_content 75
      "Running sensitivity detection...",
   progressEvent videoId .processing .analyzing_content 85
      "Analyzing audio content..."]

/-- `analyzeSensitivity` from `sensitivityAnalyzer.js`. The simulated
delays and the four progress emissions run first; then
`generateMockAnalysis` either produces the (randomized) mock result —
supplied here as the `mock` input — or raises, in which case the
function's own catch block returns a `pending` classification with zero
confidence, no flags, `analyzedAt` set to the current time, and the
error message embedded under `details.error`. The function never
rejects. -/
def analyzeSensitivity (videoId : String) (internalError : Option String)
    (now : Nat) (mock : SensitivityResult) : SensitivityResult × List Event :=
  (match internalError with
   | some m =>
       { classification := .pending, confidence := 0, flags := [],
         analyzedAt := some now, details := .errorDetail m }
   | none => mock,
   sensitivityEvents videoId)

/-- Which fallible operations throw during one `processVideo` run, and
the remaining nondeterministic inputs of the run. `findThrows` is
`Video.findById` rejecting (store unreachable); `saveN` is the N-th
`video.save()` in the try block rejecting, carrying the error message;
`errorUpdateThrows` is the `Video.findByIdAndUpdate` inside the catch
block rejecting (its message is swallowed by the inner catch).
`metaRes`, `thumbRes`, `analysisErr`, `mock` and `now` feed the
collaborator calls; none of those calls can throw into the pipeline. -/
structure Faults where
  findThrows : Option String
  save1 : Option String
  save2 : Option String
  save3 : Option String
  save4 : Option String
  save5 : Option String
  errorUpdateThrows : Bool
  metaRes : SubprocResult (Option FFprobeData)
  thumbRes : SubprocResult Unit
  analysisErr : Option String
  mock : SensitivityResult
  now : Nat

/-- Observable outcome of one `processVideo` run: the record left in the
durable store, the successful persists in order (`saves`), the emitted
events in order, and whether the returned object had `success: true`. -/
structure RunResult where
  store : Option Video
  saves : List Video
  events : List Event
  success : Bool
  deriving Repr

/-- The catch block of `processVideo`: `Video.findByIdAndUpdate(videoId,
{status: 'failed', processingError: error.message, processingStage:
'error'})` followed by one error-flagged event on the progress channel
(carrying `progress: 0`). If that update itself rejects, the inner catch
swallows the error: nothing further is persisted and no event is
emitted. A missing record updates nothing but the event is still
emitted. `processingProgress` is not among the updated fields. -/
def errorUpdate (f : Faults) (videoId msg : String) (store : Option Video)
    (saves : List Video) (events : List Event) : RunResult :=
  if f.errorUpdateThrows then
    { store := store, saves := saves, events := events, success := false }
  else
    match store with
    | none =>
        { store := none, saves := saves,
          events := events ++
            [{ videoId := videoId, status := .failed, stage := .error,
               progress := 0, message := msg, isError := true }],
          success := false }
    | some v =>
        let v' := { v with status := .failed, processingError := some msg,
                           processingStage := Stage.error }
        { store := some v', saves := saves ++ [v'],
          events := events ++
            [{ videoId := videoId, status := .failed, stage := .error,
               progress := 0, message := msg, isError := true }],
          success := false }

/-- `processVideo` from `videoProcessor.js`, over the single-item store
`store0`. Mirrors the source order: findById; persist
processing/extracting_metadata/10 and emit; extract metadata, merge,
persist 30/generating_thumbnail and emit; generate thumbnail, merge if
non-null, persist 50/analyzing_content and emit; run
`analyzeSensitivity` (which emits 55–85), merge, persist 90/finalizing
and emit; persist completed/100/done and emit the final event carrying
the sensitivity result. Any throw diverts to `errorUpdate`. -/
def processVideo (videoId : String) (f : Faults) (store0 : Option Video) :
    RunResult :=
  match f.findThrows with
  | some m => errorUpdate f videoId m store0 [] []
  | none =>
  match store0 with
  | none => errorUpdate f videoId "Video not found" none [] []
  | some video =>
  let v1 := { video with status := VideoStatus.processing,
                         processingStage := Stage.extracting_metadata,
                         processingProgress := 10 }
  match f.save1 with
  | some m => errorUpdate f videoId m (some video) [] []
  | none =>
  let events1 := [progressEvent videoId .processing .extracting_metadata 10
      "Extracting video metadata..."]
  let md := extractMetadata f.metaRes
  let v2 := { v1 with duration := md.duration,
                      resolution := { width := md.width, height := md.height },
                      metadata := some { codec := md.codec, bitrate := md.bitrate },
                      processingProgress := 30,
                      processingStage := Stage.generating_thumbnail }
  match f.save2 with
  | some m => errorUpdate f videoId m (some v1) [v1] events1
  | none =>
  let events2 := events1 ++ [progressEvent videoId .processing
      .generating_thumbnail 30 "Generating thumbnail..."]
  let thumb := generateThumbnail (thumbnailPathOf videoId) f.thumbRes
  let v3 := { v2 with thumbnailPath :=
                        (match thumb with
                         | some p => some p
                         | none => v2.thumbnailPath),
                      processingProgress := 50,
                      processingStage := Stage.analyzing_content }
  match f.save3 with
  | some m => errorUpdate f videoId m (some v2) [v1, v2] events2
  | none =>
  let events3 := events2 ++ [progressEvent videoId .processing
      .analyzing_content 50 "Analyzing content for sensitivity..."]
  let sens := (analyzeSensitivity videoId f.analysisErr f.now f.mock).1
  let events3' := events3 ++ (analyzeSensitivity videoId f.analysisErr f.now f.mock).2
  let v4 := { v3 with sensitivityResult := sens,
                      processingProgress := 90,
                      processingStage := Stage.finalizing }
  match f.save4 with
  | some m => errorUpdate f videoId m (some v3) [v1, v2, v3] events3'
  | none =>
  let events4 := events3' ++ [progressEvent videoId .processing .finalizing 90
      "Finalizing..."]
  let v5 := { v4 with status := VideoStatus.completed,
                      processingProgress := 100,
                      processingStage := Stage.done }
  match f.save5 with
  | some m => errorUpdate f videoId m (some v4) [v1, v2, v3, v4] events4
  | none =>
  let events5 := events4 ++
      [{ progressEvent videoId VideoStatus.completed Stage.done 100
           "Processing complete!" with sensitivityResult := some sens }]
  { store := some v5, saves := [v1, v2, v3, v4, v5], events := events5,
    success := true }

/-- The in-memory `ProcessingQueue` of `videoProcessor.js`: an unbounded
FIFO of video ids (`queue`), a fixed `concurrency` (constructed as 2), a
count of running pipeline executions (`activeJobs`), and the unused
`processing` flag the constructor initializes. -/
structure ProcessingQueue where
  queue : List String
  processing : Bool
  concurrency : Nat
  activeJobs : Nat
  deriving DecidableEq, Repr

/-- `new ProcessingQueue()`. -/
def ProcessingQueue.init : ProcessingQueue :=
  { queue := [], processing := false, concurrency := 2, activeJobs := 0 }

/-- The `process()` method: if `activeJobs >= concurrency` or the queue
is empty it does nothing; otherwise it shifts the head id off the queue,
increments `activeJobs`, and starts a pipeline run for that id (returned
as the admitted id). -/
def ProcessingQueue.processNext (q : ProcessingQueue) :
    ProcessingQueue × Option String :=
  if q.activeJobs ≥ q.concurrency ∨ q.queue.isEmpty then (q, none)
  else
    match q.queue with
    | [] => (q, none)
    | id :: rest =>
        ({ q with queue := rest, activeJobs := q.activeJobs + 1 }, some id)

/-- The `add(videoId)` method: push the id onto the FIFO, then attempt
admission via `process()`. -/
def ProcessingQueue.add (q : ProcessingQueue) (videoId : String) :
    ProcessingQueue × Option String :=
  ProcessingQueue.processNext { q with queue := q.queue ++ [videoId] }

/-- The `finally` block of `process()`, run when a pipeline execution
finishes (whether `processVideo` resolved with success or failure, or
even rejected): decrement `activeJobs`, then attempt to admit the next
queued id via `process()`. The finished id is never re-enqueued. -/
def ProcessingQueue.finishJob (q : ProcessingQueue) :
    ProcessingQueue × Option String :=
  ProcessingQueue.processNext { q with activeJobs := q.activeJobs - 1 }

/-- External stimuli of the scheduler: a `submit` (an `add` call from the
upload or reprocess route) or the completion of one running execution. -/
inductive QueueEvent where
  | submit (videoId : String)
  | finish

/-- One scheduler step (state part only). -/
def queueStep (q : ProcessingQueue) : QueueEvent → ProcessingQueue
  | .submit id => (q.add id).1
  | .finish => q.finishJob.1

/-- Scheduler state after a sequence of stimuli from the initial state. -/
def queueRun (events : List QueueEvent) : ProcessingQueue :=
  events.foldl queueStep ProcessingQueue.init

/-- The default sensitivity sub-document a fresh Video gets from the
schema (`classification 'pending'`, `confidence 0`, no flags,
`analyzedAt null`, `details {}`). -/
def defaultSensitivityResult : SensitivityResult :=
  { classification := .pending, confidence := 0, flags := [],
    analyzedAt := none, details := .empty }

/-- The record built by the `POST /api/videos/upload` handler
(`new Video({...})` with `status: 'pending'`, `processingProgress: 0`)
combined with the schema defaults for the remaining fields
(`processingStage 'queued'`, `processingError null`, zero duration and
resolution, no thumbnail, zero views). -/
def newVideo (title mimetype filePath : String) (size : Nat) : Video :=
  { title := title, mimetype := mimetype, size := size, duration := 0,
    resolution := { width := 0, height := 0 }, status := .pending,
    processingProgress := 0, processingStage := .queued,
    processingError := none, sensitivityResult := defaultSensitivityResult,
    thumbnailPath := none, filePath := filePath, metadata := none,
    views := 0 }

/-- The reset performed by the `POST /api/videos/:id/reprocess` handler
before re-queueing: `status = 'pending'`, `processingProgress = 0`,
`processingStage = 'queued'`, `processingError = null`; every other
field of the record is kept. -/
def resetVideo (v : Video) : Video :=
  { v with status := .pending, processingProgress := 0,
           processingStage := .queued, processingError := none }

/-- The `POST /api/videos/:id/reprocess` handler (authentication and the
ownership check are external collaborators and elided): 404 when the id
resolves to no record; otherwise reset the record, persist it, and
re-admit the same id to the processing queue. Returns the HTTP status,
the stored record, the updated queue, and the id the queue admitted (if
a worker slot was free). No new record is created. -/
def reprocessRoute (videoId : String) (store : Option Video)
    (q : ProcessingQueue) :
    Nat × Option Video × ProcessingQueue × Option String :=
  match store with
  | none => (404, none, q, none)
  | some v =>
      let v' := resetVideo v
      let (q', admitted) := q.add videoId
      (200, some v', q', admitted)

/-- A JavaScript number as this route uses it: `NaN` (from a failed
`parseInt`) or an integer. -/
inductive JsNum where
  | nan
  | int (n : Int)
  deriving DecidableEq, Repr

/-- JS `>=` against an integer: any comparison with `NaN` is false. -/
def JsNum.geInt : JsNum → Int → Bool
  | .nan, _ => false
  | .int n, m => n ≥ m

/-- Value of a non-empty digit prefix, `NaN` when there is none. -/
def digitsVal (cs : List Char) : JsNum :=
  match cs.takeWhile Char.isDigit with
  | [] => .nan
  | ds => .int (ds.foldl (fun a c => a * 10 + ((c.toNat : Int) - 48)) 0)

/-- JS `parseInt(s, 10)`: skip leading whitespace, allow one sign, then
take the longest digit prefix; `NaN` if no digit follows. -/
def parseIntJS (s : String) : JsNum :=
  match s.data.dropWhile Char.isWhitespace with
  | '+' :: rest => digitsVal rest
  | '-' :: rest =>
      match digitsVal rest with
      | .nan => .nan
      | .int n => .int (-n)
  | cs => digitsVal cs

/-- `pat` is a prefix of the character list. -/
def startsWithChars : List Char → List Char → Bool
  | [], _ => true
  | _ :: _, [] => false
  | p :: ps, x :: xs => p = x && startsWithChars ps xs

/-- JS `String.prototype.replace` with a non-global pattern and empty
replacement: delete the first occurrence of `pat`. -/
def removeFirstSeq (pat : List Char) : List Char → List Char
  | [] => []
  | x :: t =>
      if startsWithChars pat (x :: t) then (x :: t).drop pat.length
      else x :: removeFirstSeq pat t

/-- JS `String.prototype.split` with a one-character separator. -/
def splitOnChar (sep : Char) : List Char → List (List Char)
  | [] => [[]]
  | x :: t =>
      match splitOnChar sep t with
      | [] => [[]]
      | h :: rest => if x = sep then [] :: h :: rest else (x :: h) :: rest

/-- Response assembled by the `GET /api/stream/:id` handler: HTTP status,
the headers it sets, the byte span piped to the client (`none` when no
body is streamed), and whether the view counter was incremented. -/
structure StreamResponse where
  status : Nat
  contentRange : Option String := none
  acceptRanges : Bool := false
  contentLength : Option JsNum := none
  contentType : Option String := none
  body : Option (List Nat) := none
  viewCounted : Bool := false
  deriving DecidableEq, Repr

/-- `range.replace(/bytes=/, '').split('-')` — the pieces of a range
header value. -/
def rangeParts (r : String) : List String :=
  (splitOnChar '-' (removeFirstSeq "bytes=".data r.data)).map
    (fun cs => String.mk cs)

/-- `parseInt(parts[0], 10)` — the start bound; `NaN` when the start field
is missing or unparseable (the handler supplies no default for it). -/
def rangeStart (r : String) : JsNum :=
  parseIntJS ((rangeParts r).headD "")

/-- `parts[1] ? parseInt(parts[1], 10) : fileSize - 1` — the end bound,
defaulting to the last byte offset only when the end field is missing or
empty (falsy). -/
def rangeEnd (r : String) (fileSize : Nat) : JsNum :=
  match (rangeParts r).get? 1 with
  | none => JsNum.int ((fileSize : Int) - 1)
  | some p => if p = "" then JsNum.int ((fileSize : Int) - 1) else parseIntJS p

/-- The `GET /api/stream/:id` handler of `stream.js` (authentication and
`canAccess` are external and elided; `file` is the byte content of
`video.filePath`, so `fs.statSync(...).size` is `file.length`).

Without a (truthy) range header: 200 with the whole file. With one:
strip the first `bytes=`, split on `-`, `start = parseInt(parts[0])`
(no default: an unparseable start is `NaN`), `end = parts[1] ?
parseInt(parts[1]) : fileSize - 1`. If `start >= fileSize` — false
whenever `start` is `NaN` — respond 416. Otherwise the handler calls
`fs.createReadStream(path, {start, end})`: when either bound is `NaN`
(or `start > end`/`end < 0`) that constructor throws `ERR_OUT_OF_RANGE`,
the route's catch responds 500 and no range headers are sent; when the
bounds are valid integers it responds 206 with `Content-Range: bytes
<start>-<end>/<fileSize>`, `Content-Length = end - start + 1`, and pipes
the bytes from `start` through `end`, truncated at end of file. The view
counter is incremented exactly when the range header is absent (or
falsy, i.e. the empty string) or is exactly `bytes=0-`. -/
def streamRoute (video : Option Video) (fileExists : Bool) (file : List Nat)
    (range : Option String) : StreamResponse :=
  match video with
  | none => { status := 404 }
  | some v =>
      if v.status ≠ VideoStatus.completed then { status := 400 }
      else if !fileExists then { status := 404 }
      else
        let fileSize := file.length
        let rangeTruthy := match range with
          | none => false
          | some r => r ≠ ""
        let counted := !rangeTruthy || range == some "bytes=0-"
        if rangeTruthy = false then
          { status := 200, contentLength := some (.int fileSize),
            contentType := some v.mimetype, acceptRanges := true,
            body := some file, viewCounted := counted }
        else
          let r := range.getD ""
          let start := rangeStart r
          let endv := rangeEnd r fileSize
          if start.geInt fileSize then { status := 416, viewCounted := counted }
          else
            match start, endv with
            | .int s, .int e =>
                if 0 ≤ s ∧ s ≤ e ∧ 0 ≤ e then
                  { status := 206,
                    contentRange := some ("bytes " ++ toString s ++ "-" ++
                      toString e ++ "/" ++ toString fileSize),
                    acceptRanges := true,
                    contentLength := some (.int (e - s + 1)),
                    contentType := some v.mimetype,
                    body := some ((file.drop s.toNat).take (e - s + 1).toNat),
                    viewCounted := counted }
                else { status := 500, viewCounted := counted }
            | _, _ => { status := 500, viewCounted := counted }

/-- A list of progress values is non-decreasing. -/
def nondecreasing : List Nat → Bool
  | a :: b :: t => a ≤ b && nondecreasing (b :: t)
  | _ => true

/-- Position of a stage in the forward order (error last). -/
def stageIdx : Stage → Nat
  | .queued => 0
  | .extracting_metadata => 1
  | .generating_thumbnail => 2
  | .analyzing_content => 3
  | .finalizing => 4
  | .done => 5
  | .error => 6

/-- The successor of a stage in the forward sequence. -/
def nextStage : Stage → Stage
  | .queued => .extracting_metadata
  | .extracting_metadata => .generating_thumbnail
  | .generating_thumbnail => .analyzing_content
  | .analyzing_content => .finalizing
  | .finalizing => .done
  | .done => .done
  | .error => .error

/-- One admissible persisted-stage transition: the next stage of the
forward sequence, or a direct jump to `error`. -/
def stageStepB (a b : Stage) : Bool :=
  b = nextStage a ∨ b = Stage.error

/-- Every consecutive pair of the list is an admissible forward
transition. -/
def forwardStages : List Stage → Bool
  | a :: b :: t => stageStepB a b && forwardStages (b :: t)
  | _ => true

/-- Stage positions never go backwards along the list. -/
def stagesMonotone : List Stage → Bool
  | a :: b :: t => stageIdx a ≤ stageIdx b && stagesMonotone (b :: t)
  | _ => true

/-- The §3 record invariant: `status = completed ⟺ stage = done ⟺
progress = 100` and `status = failed ⟺ stage = error`. -/
def consistent (v : Video) : Prop :=
  (v.status = VideoStatus.completed ↔ v.processingStage = Stage.done) ∧
  (v.status = VideoStatus.completed ↔ v.processingProgress = 100) ∧
  (v.status = VideoStatus.failed ↔ v.processingStage = Stage.error)

instance (v : Video) : Decidable (consistent v) := by
  unfold consistent; infer_instance

/-- A concrete freshly-ingested record, used to instantiate theorems. -/
def sampleVideo : Video :=
  newVideo "clip" "video/mp4" "uploads/videos/clip.mp4" 1000

/-- A concrete mock analysis result (one possible output of
`generateMockAnalysis` on its safe branch). -/
def mockSafe : SensitivityResult :=
  { classification := .safe, confidence := 90, flags := [],
    analyzedAt := some 7, details := .analysisDetail 40 true 2500 "1.0.0-mock" }

/-- A run in which no store operation throws, ffprobe and ffmpeg both
succeed, and the analyzer returns `mockSafe`. -/
def noFaults : Faults :=
  { findThrows := none, save1 := none, save2 := none, save3 := none,
    save4 := none, save5 := none, errorUpdateThrows := false,
    metaRes := .ok (some { duration := some 12, width := some 1280,
                           height := some 720, codec := some "h264",
                           bitrate := some 900 }),
    thumbRes := .ok (), analysisErr := none, mock := mockSafe, now := 7 }

/-- A run in which the second `video.save()` rejects. -/
def c1Faults : Faults :=
  { noFaults with save2 := some "MongoNetworkError: connection lost" }

/-- C1, counterexample: the claim also asserts that the progress value of
every event emitted on the progress channel is non-decreasing within a
run. When the second save rejects, the run emits progress 10 and then
the terminal error event — sent through the same `emitVideoProgress`
channel — with `progress: 0`: the emitted progress sequence is
`[10, 0]`, which decreases. -/
theorem c1_counterexample :
    ((processVideo "v1" c1Faults (some sampleVideo)).events.map
        (fun e => e.progress)) = [10, 0] ∧
    nondecreasing ((processVideo "v1" c1Faults (some sampleVideo)).events.map
        (fun e => e.progress)) = false := by
  constructor <;> rfl

/-- C1, amended: in every run starting from a record whose stage is
`queued`, (a) every emitted event's progress lies in `[0, 100]`; (b) the
progress values of the non-error events are non-decreasing; (c) the
stages of the persisted records advance only through the forward
sequence `queued → extracting_metadata → generating_thumbnail →
analyzing_content → finalizing → done`, or jump directly to `error`;
(d) the stages of the emitted events never move backwards; and (e) the
progress values carried by the item across its persists are
non-decreasing. (The terminal error event, excluded by (b), always
carries progress 0.) -/
theorem c1_theorem (videoId : String) (f : Faults) (v0 : Video)
    (h : v0.processingStage = Stage.queued) :
    ((processVideo videoId f (some v0)).events.all
        (fun e => e.progress ≤ 100)) = true ∧
    nondecreasing (((processVideo videoId f (some v0)).events.filter
        (fun e => !e.isError)).map (fun e => e.progress)) = true ∧
    forwardStages (v0.processingStage ::
        (processVideo videoId f (some v0)).saves.map
          (fun v => v.processingStage)) = true ∧
    stagesMonotone ((processVideo videoId f (some v0)).events.map
        (fun e => e.stage)) = true ∧
    nondecreasing ((processVideo videoId f (some v0)).saves.map
        (fun v => v.processingProgress)) = true := by
  obtain ⟨ft, s1, s2, s3, s4, s5, eu, mr, tr, ae, mk, now⟩ := f
  simp only [h]
  cases ft <;> cases s1 <;> cases s2 <;> cases s3 <;> cases s4 <;>
    cases s5 <;> cases eu <;>
    exact ⟨rfl, rfl, rfl, rfl, rfl⟩

/-- C1 witness: the fault-free run on a fresh record. -/
theorem c1_witness :
    sampleVideo.processingStage = Stage.queued ∧
    (((processVideo "v1" noFaults (some sampleVideo)).events.all
        (fun e => e.progress ≤ 100)) = true ∧
      nondecreasing (((processVideo "v1" noFaults (some sampleVideo)).events.filter
          (fun e => !e.isError)).map (fun e => e.progress)) = true ∧
      forwardStages (sampleVideo.processingStage ::
          (processVideo "v1" noFaults (some sampleVideo)).saves.map
            (fun v => v.processingStage)) = true ∧
      stagesMonotone ((processVideo "v1" noFaults (some sampleVideo)).events.map
          (fun e => e.stage)) = true ∧
      nondecreasing ((processVideo "v1" noFaults (some sampleVideo)).saves.map
          (fun v => v.processingProgress)) = true) :=
  ⟨rfl, c1_theorem "v1" noFaults sampleVideo rfl⟩

/-- C2: every mutation of the MediaItem record preserves the §3
consistency invariant. The record built by the upload handler and the
reprocess reset are consistent outright; and in any run started on a
consistent record that is not already `completed` (the only records ever
admitted are freshly created or freshly reset ones, which are `pending`),
every state the run persists — the per-stage saves, the completion save,
and the error-path update, under any combination of faults — is
consistent. -/
theorem c2_theorem (videoId title mimetype filePath : String) (size : Nat)
    (f : Faults) (v0 w : Video)
    (hc : consistent v0) (hs : v0.status ≠ VideoStatus.completed) :
    consistent (newVideo title mimetype filePath size) ∧
    consistent (resetVideo w) ∧
    ∀ u ∈ (processVideo videoId f (some v0)).saves, consistent u := by
  have hp : v0.processingProgress ≠ 100 := fun h100 => hs (hc.2.1.mpr h100)
  refine ⟨by simp [consistent, newVideo], by simp [consistent, resetVideo], ?_⟩
  obtain ⟨ft, s1, s2, s3, s4, s5, eu, mr, tr, ae, mk, now⟩ := f
  cases ft <;> cases s1 <;> cases s2 <;> cases s3 <;> cases s4 <;>
    cases s5 <;> cases eu <;>
    simp_all [processVideo, errorUpdate, consistent]

/-- C2 witness: a run on a fresh record, with the first save rejecting so
that the error path fires as well. -/
theorem c2_witness :
    consistent sampleVideo ∧ sampleVideo.status ≠ VideoStatus.completed ∧
    (consistent (newVideo "t" "video/mp4" "p" 5) ∧
      consistent (resetVideo sampleVideo) ∧
      ∀ u ∈ (processVideo "v1"
          { noFaults with save1 := some "store unreachable" }
          (some sampleVideo)).saves, consistent u) :=
  ⟨by decide, by decide,
   c2_theorem "v1" "t" "video/mp4" "p" 5
     { noFaults with save1 := some "store unreachable" }
     sampleVideo sampleVideo (by decide) (by decide)⟩

/-- `process()` admits at most one job and never pushes `activeJobs`
above `concurrency` when it was within bounds. -/
lemma processNext_le (q : ProcessingQueue) (h : q.activeJobs ≤ q.concurrency) :
    q.processNext.1.activeJobs ≤ q.concurrency ∧
    q.processNext.1.concurrency = q.concurrency ∧
    q.processNext.1.activeJobs ≤ q.activeJobs + 1 := by
  unfold ProcessingQueue.processNext
  split
  · exact ⟨h, rfl, Nat.le_succ _⟩
  · rename_i hcond
    push_neg at hcond
    split
    · exact ⟨h, rfl, Nat.le_succ _⟩
    · refine ⟨?_, rfl, Nat.le_refl _⟩
      simp only []
      omega

/-- Both scheduler stimuli preserve the worker-pool bound. -/
lemma queueStep_inv (q : ProcessingQueue) (e : QueueEvent)
    (h1 : q.concurrency = 2) (h2 : q.activeJobs ≤ 2) :
    (queueStep q e).concurrency = 2 ∧ (queueStep q e).activeJobs ≤ 2 := by
  cases e with
  | submit id =>
      have h := processNext_le { q with queue := q.queue ++ [id] }
        (by simp only []; omega)
      unfold queueStep ProcessingQueue.add
      refine ⟨by rw [h.2.1]; exact h1, ?_⟩
      have := h.1
      simp only [] at this ⊢
      omega
  | finish =>
      have h := processNext_le { q with activeJobs := q.activeJobs - 1 }
        (by simp only []; omega)
      unfold queueStep ProcessingQueue.finishJob
      refine ⟨by rw [h.2.1]; exact h1, ?_⟩
      have := h.2.2
      simp only [] at this ⊢
      omega

/-- Along any stimulus sequence from the initial scheduler state, at most
two pipeline executions are ever active. -/
lemma queueRun_inv (events : List QueueEvent) :
    (queueRun events).concurrency = 2 ∧ (queueRun events).activeJobs ≤ 2 := by
  unfold queueRun
  have main : ∀ (es : List QueueEvent) (q : ProcessingQueue),
      q.concurrency = 2 → q.activeJobs ≤ 2 →
      (es.foldl queueStep q).concurrency = 2 ∧
      (es.foldl queueStep q).activeJobs ≤ 2 := by
    intro es
    induction es with
    | nil => intro q h1 h2; exact ⟨h1, h2⟩
    | cons e t ih =>
        intro q h1 h2
        have h := queueStep_inv q e h1 h2
        exact ih (queueStep q e) h.1 h.2
  exact main events ProcessingQueue.init rfl (by decide)

/-- C3: for any sequence of submissions and completions, the number of
active pipeline executions never exceeds the pool size `N = 2`; when a
running execution finishes while the FIFO is non-empty, the active count
is decremented and the head of the FIFO is admitted in its place (net
count unchanged, head dequeued); when it finishes on an empty FIFO the
count is simply decremented. -/
theorem c3_theorem (events : List QueueEvent)
    (q q' : ProcessingQueue) (id : String) (rest : List String)
    (hact : 1 ≤ q.activeJobs) (hb : q.activeJobs ≤ q.concurrency)
    (hq : q.queue = id :: rest) (hq' : q'.queue = []) :
    (queueRun events).activeJobs ≤ 2 ∧
    (queueRun events).concurrency = 2 ∧
    q.finishJob = ({ q with queue := rest, activeJobs := q.activeJobs },
      some id) ∧
    q'.finishJob = ({ q' with activeJobs := q'.activeJobs - 1 }, none) := by
  refine ⟨(queueRun_inv events).2, (queueRun_inv events).1, ?_, ?_⟩
  · unfold ProcessingQueue.finishJob ProcessingQueue.processNext
    rw [if_neg]
    · simp only [hq]
      have h : q.activeJobs - 1 + 1 = q.activeJobs := by omega
      rw [h]
    · simp only [hq, List.isEmpty_cons]
      push_neg
      exact ⟨by omega, by simp⟩
  · unfold ProcessingQueue.finishJob ProcessingQueue.processNext
    rw [if_pos]
    simp [hq']

/-- C3 witness: a burst of three submissions (two admitted, one queued),
and a completion on that state admitting the queued head. -/
theorem c3_witness :
    1 ≤ (ProcessingQueue.mk ["c"] false 2 2).activeJobs ∧
    (ProcessingQueue.mk ["c"] false 2 2).activeJobs ≤
      (ProcessingQueue.mk ["c"] false 2 2).concurrency ∧
    ((queueRun [.submit "a", .submit "b", .submit "c"]).activeJobs ≤ 2 ∧
      (queueRun [.submit "a", .submit "b", .submit "c"]).concurrency = 2 ∧
      (ProcessingQueue.mk ["c"] false 2 2).finishJob =
        (ProcessingQueue.mk [] false 2 2, some "c") ∧
      (ProcessingQueue.mk [] false 2 1).finishJob =
        (ProcessingQueue.mk [] false 2 0, none)) :=
  ⟨by decide, by decide,
   c3_theorem [.submit "a", .submit "b", .submit "c"]
     (ProcessingQueue.mk ["c"] false 2 2) (ProcessingQueue.mk [] false 2 1)
     "c" [] (by decide) (by decide) rfl rfl⟩

/-- The message of the first rejection in the try block of a run on a
present record, in the order the fallible operations execute
(`Video.findById`, then the five `video.save()` calls); `none` when
nothing throws. Subprocess and analyzer calls never throw into the
pipeline. -/
def firstThrow (f : Faults) : Option String :=
  f.findThrows <|> f.save1 <|> f.save2 <|> f.save3 <|> f.save4 <|> f.save5

/-- A finished execution is never re-enqueued: the `finally` block only
dequeues. -/
lemma finishJob_no_requeue (q : ProcessingQueue) :
    q.finishJob.1.queue.length ≤ q.queue.length := by
  unfold ProcessingQueue.finishJob ProcessingQueue.processNext
  split
  · exact Nat.le_refl _
  · split
    · exact Nat.le_refl _
    · rename_i id rest heq
      have h2 : q.queue = id :: rest := heq
      rw [h2]
      simp

/-- A run in which the first `video.save()` rejects and the error-path
`findByIdAndUpdate` rejects as well. -/
def c4Faults : Faults :=
  { noFaults with save1 := some "store down", errorUpdateThrows := true }

/-- C4, counterexample: when an uncaught exception is raised (here the
first save rejects with "store down") and the error-path
`findByIdAndUpdate` then rejects too, the inner catch swallows the
failure: the record keeps its prior state (`pending`, not `failed`) and
no error event at all is emitted — not the exactly-one the claim
requires. -/
theorem c4_counterexample :
    (processVideo "v1" c4Faults (some sampleVideo)).store = some sampleVideo ∧
    ((processVideo "v1" c4Faults (some sampleVideo)).store.map
        (fun v => v.status)) = some VideoStatus.pending ∧
    ((processVideo "v1" c4Faults (some sampleVideo)).events.filter
        (fun e => e.isError)).length = 0 := by
  exact ⟨rfl, rfl, rfl⟩

/-- C4, amended: for every uncaught exception during a pipeline run on a
present record, provided the error-path record update itself succeeds,
the item transitions directly to status `failed` and stage `error`,
`processingError` is set to the failure description, exactly one
terminal error event is emitted (and it is the last event of the run),
the run reports failure, and it is not retried automatically (the
scheduler's completion step never re-enqueues an id). If the error-path
update also rejects, the failure is swallowed: the record and the event
stream are left as they were. -/
theorem c4_theorem (videoId m : String) (f : Faults) (v0 : Video)
    (q : ProcessingQueue)
    (hm : firstThrow f = some m) (he : f.errorUpdateThrows = false) :
    ((processVideo videoId f (some v0)).store.map (fun v => v.status))
        = some VideoStatus.failed ∧
    ((processVideo videoId f (some v0)).store.map (fun v => v.processingStage))
        = some Stage.error ∧
    ((processVideo videoId f (some v0)).store.map (fun v => v.processingError))
        = some (some m) ∧
    ((processVideo videoId f (some v0)).events.filter
        (fun e => e.isError)).length = 1 ∧
    ((processVideo videoId f (some v0)).events.getLast?.map
        (fun e => e.isError)) = some true ∧
    ((processVideo videoId f (some v0)).events.getLast?.map
        (fun e => e.message)) = some m ∧
    (processVideo videoId f (some v0)).success = false ∧
    q.finishJob.1.queue.length ≤ q.queue.length := by
  obtain ⟨ft, s1, s2, s3, s4, s5, eu, mr, tr, ae, mk, now⟩ := f
  subst he
  cases ft <;> cases s1 <;> cases s2 <;> cases s3 <;> cases s4 <;> cases s5 <;>
    simp_all [processVideo, errorUpdate, firstThrow, progressEvent,
      analyzeSensitivity, sensitivityEvents, List.filter, List.getLast?,
      finishJob_no_requeue q]

/-- C4 witness: the third save rejecting mid-run, with a working
error-path update. -/
theorem c4_witness :
    firstThrow { noFaults with save3 := some "MongoNetworkError" }
        = some "MongoNetworkError" ∧
    ({ noFaults with save3 := some "MongoNetworkError" } : Faults).errorUpdateThrows
        = false ∧
    (((processVideo "v1" { noFaults with save3 := some "MongoNetworkError" }
        (some sampleVideo)).store.map (fun v => v.status))
          = some VideoStatus.failed ∧
      ((processVideo "v1" { noFaults with save3 := some "MongoNetworkError" }
        (some sampleVideo)).store.map (fun v => v.processingStage))
          = some Stage.error ∧
      ((processVideo "v1" { noFaults with save3 := some "MongoNetworkError" }
        (some sampleVideo)).store.map (fun v => v.processingError))
          = some (some "MongoNetworkError") ∧
      ((processVideo "v1" { noFaults with save3 := some "MongoNetworkError" }
        (some sampleVideo)).events.filter (fun e => e.isError)).length = 1 ∧
      ((processVideo "v1" { noFaults with save3 := some "MongoNetworkError" }
        (some sampleVideo)).events.getLast?.map (fun e => e.isError))
          = some true ∧
      ((processVideo "v1" { noFaults with save3 := some "MongoNetworkError" }
        (some sampleVideo)).events.getLast?.map (fun e => e.message))
          = some "MongoNetworkError" ∧
      (processVideo "v1" { noFaults with save3 := some "MongoNetworkError" }
        (some sampleVideo)).success = false ∧
      ProcessingQueue.init.finishJob.1.queue.length ≤
        ProcessingQueue.init.queue.length) :=
  ⟨rfl, rfl,
   c4_theorem "v1" "MongoNetworkError"
     { noFaults with save3 := some "MongoNetworkError" }
     sampleVideo ProcessingQueue.init rfl rfl⟩

/-- The metadata subprocess failed: its `'error'` event fired, it exited
non-zero, or its output was unparseable. -/
def metaFailed : SubprocResult (Option FFprobeData) → Bool
  | .ok (some _) => false
  | _ => true

/-- The thumbnail subprocess failed. -/
def thumbFailed : SubprocResult Unit → Bool
  | .ok _ => false
  | _ => true

/-- C5: when the metadata extractor fails in any of its three ways, it
returns the zero-value fallback and the item is not failed: with the
store operations succeeding, the run still completes with status
`completed`, `duration = 0` and zero dimensions; likewise a thumbnail
subprocess failure leaves the record's `thumbnailPath` untouched and the
pipeline proceeds. -/
theorem c5_theorem (videoId : String) (f : Faults) (v0 : Video)
    (hft : f.findThrows = none) (h1 : f.save1 = none) (h2 : f.save2 = none)
    (h3 : f.save3 = none) (h4 : f.save4 = none) (h5 : f.save5 = none)
    (hm : metaFailed f.metaRes = true) :
    extractMetadata f.metaRes = defaultMetadata ∧
    (processVideo videoId f (some v0)).success = true ∧
    ((processVideo videoId f (some v0)).store.map (fun v => v.status))
        = some VideoStatus.completed ∧
    ((processVideo videoId f (some v0)).store.map (fun v => v.duration))
        = some 0 ∧
    ((processVideo videoId f (some v0)).store.map (fun v => v.resolution))
        = some { width := 0, height := 0 } ∧
    (thumbFailed f.thumbRes = true →
      ((processVideo videoId f (some v0)).store.map (fun v => v.thumbnailPath))
          = some v0.thumbnailPath) := by
  obtain ⟨ft, s1, s2, s3, s4, s5, eu, mr, tr, ae, mk, now⟩ := f
  subst hft h1 h2 h3 h4 h5
  rcases mr with _ | _ | (_ | d) <;> cases tr <;>
    simp_all [processVideo, extractMetadata, generateThumbnail, defaultMetadata,
      metaFailed, thumbFailed]

/-- A run in which ffprobe exits non-zero and ffmpeg errors, while the
store behaves. -/
def c5Faults : Faults :=
  { noFaults with metaRes := .nonZeroExit, thumbRes := .procError }

/-- C5 witness: ffprobe exits non-zero and ffmpeg errors; the fresh item
still completes with zero duration and no thumbnail. -/
theorem c5_witness :
    metaFailed c5Faults.metaRes = true ∧
    (extractMetadata c5Faults.metaRes = defaultMetadata ∧
      (processVideo "v1" c5Faults (some sampleVideo)).success = true ∧
      ((processVideo "v1" c5Faults (some sampleVideo)).store.map
          (fun v => v.status)) = some VideoStatus.completed ∧
      ((processVideo "v1" c5Faults (some sampleVideo)).store.map
          (fun v => v.duration)) = some 0 ∧
      ((processVideo "v1" c5Faults (some sampleVideo)).store.map
          (fun v => v.resolution)) = some { width := 0, height := 0 } ∧
      (thumbFailed c5Faults.thumbRes = true →
        ((processVideo "v1" c5Faults (some sampleVideo)).store.map
            (fun v => v.thumbnailPath)) = some sampleVideo.thumbnailPath)) :=
  ⟨rfl, c5_theorem "v1" c5Faults sampleVideo rfl rfl rfl rfl rfl rfl rfl⟩

/-- C6: when the analyzer's internal analysis raises, `analyzeSensitivity`
does not throw: it returns a `pending` classification with zero
confidence, no flags, and the error message embedded in its details; the
run then still reaches the `finalizing` stage and completes normally
(status `completed`) with that result stored, provided the store
operations succeed. -/
theorem c6_theorem (videoId m : String) (f : Faults) (v0 : Video)
    (hft : f.findThrows = none) (h1 : f.save1 = none) (h2 : f.save2 = none)
    (h3 : f.save3 = none) (h4 : f.save4 = none) (h5 : f.save5 = none)
    (ha : f.analysisErr = some m) :
    (analyzeSensitivity videoId (some m) f.now f.mock).1 =
      { classification := .pending, confidence := 0, flags := [],
        analyzedAt := some f.now, details := .errorDetail m } ∧
    (processVideo videoId f (some v0)).success = true ∧
    ((processVideo videoId f (some v0)).store.map
        (fun v => v.sensitivityResult)) =
      some { classification := .pending, confidence := 0, flags := [],
             analyzedAt := some f.now, details := .errorDetail m } ∧
    ((processVideo videoId f (some v0)).store.map (fun v => v.status))
        = some VideoStatus.completed ∧
    ((processVideo videoId f (some v0)).events.any
        (fun e => e.stage = Stage.finalizing)) = true := by
  obtain ⟨ft, s1, s2, s3, s4, s5, eu, mr, tr, ae, mk, now⟩ := f
  subst hft h1 h2 h3 h4 h5 ha
  exact ⟨rfl, rfl, rfl, rfl, rfl⟩

/-- A run in which the analyzer's internal analysis raises. -/
def c6Faults : Faults :=
  { noFaults with analysisErr := some "model crashed" }

/-- C6 witness: the analyzer raises "model crashed"; the fresh item still
completes with the pending-with-error result. -/
theorem c6_witness :
    c6Faults.analysisErr = some "model crashed" ∧
    ((analyzeSensitivity "v1" (some "model crashed") c6Faults.now
        c6Faults.mock).1 =
      { classification := .pending, confidence := 0, flags := [],
        analyzedAt := some c6Faults.now,
        details := .errorDetail "model crashed" } ∧
      (processVideo "v1" c6Faults (some sampleVideo)).success = true ∧
      ((processVideo "v1" c6Faults (some sampleVideo)).store.map
          (fun v => v.sensitivityResult)) =
        some { classification := .pending, confidence := 0, flags := [],
               analyzedAt := some c6Faults.now,
               details := .errorDetail "model crashed" } ∧
      ((processVideo "v1" c6Faults (some sampleVideo)).store.map
          (fun v => v.status)) = some VideoStatus.completed ∧
      ((processVideo "v1" c6Faults (some sampleVideo)).events.any
          (fun e => e.stage = Stage.finalizing)) = true) :=
  ⟨rfl, c6_theorem "v1" "model crashed" c6Faults sampleVideo
     rfl rfl rfl rfl rfl rfl rfl⟩

/-- `add` never loses the submitted id: it is either admitted at once or
still sits in the FIFO afterwards. -/
lemma add_enqueues (q : ProcessingQueue) (id : String) :
    (q.add id).2 = some id ∨ id ∈ (q.add id).1.queue := by
  unfold ProcessingQueue.add ProcessingQueue.processNext
  split
  · right
    simp
  · have hm : id ∈ q.queue ++ [id] := by simp
    rcases hq : q.queue ++ [id] with _ | ⟨h, t⟩
    · simp at hq
    · rw [hq] at hm
      simp only [hq]
      rcases List.mem_cons.mp hm with h1 | h2
      · left
        rw [h1]
      · right
        exact h2

/-- A record that has completed a run. -/
def doneVideo : Video :=
  { sampleVideo with status := .completed, processingProgress := 100,
                     processingStage := .done }

/-- C7, counterexample: the claim requires the re-run to "re-emit a full
ordered event sequence queued through done", but no event with stage
`queued` is ever emitted: after reprocessing a completed item, the
fault-free re-run's first event is already `extracting_metadata` and no
`queued` event occurs anywhere, even though the run does end at `done`.
The `queued` stage exists only in the persisted reset record. -/
theorem c7_counterexample :
    doneVideo.status = VideoStatus.completed ∧
    (reprocessRoute "v1" (some doneVideo) ProcessingQueue.init).2.1
        = some (resetVideo doneVideo) ∧
    (((processVideo "v1" noFaults (some (resetVideo doneVideo))).events.map
        (fun e => e.stage)).head?) = some Stage.extracting_metadata ∧
    ((processVideo "v1" noFaults (some (resetVideo doneVideo))).events.all
        (fun e => e.stage ≠ Stage.queued)) = true ∧
    (((processVideo "v1" noFaults (some (resetVideo doneVideo))).events.map
        (fun e => e.stage)).getLast?) = some Stage.done := by
  exact ⟨rfl, rfl, rfl, rfl, rfl⟩

/-- C7, amended: re-submitting a completed or failed item resets the same
record to `(pending, queued, 0, null error)`, persists it (no new record
is created — the stored record is the reset of the old one), and
re-admits the same id to the scheduler (immediately, or it remains in
the FIFO); the new run, when no store operation throws, re-emits the
full ordered event sequence from `extracting_metadata(10)` through
`done(100)` — the reset `queued` state itself is persisted but emits no
event — and ends with the record `completed` (or, on a throw, with
another `error`). -/
theorem c7_theorem (videoId : String) (f : Faults) (v : Video)
    (q : ProcessingQueue)
    (_hst : v.status = VideoStatus.completed ∨ v.status = VideoStatus.failed)
    (hft : f.findThrows = none) (h1 : f.save1 = none) (h2 : f.save2 = none)
    (h3 : f.save3 = none) (h4 : f.save4 = none) (h5 : f.save5 = none) :
    reprocessRoute videoId (some v) q =
      (200, some (resetVideo v), (q.add videoId).1, (q.add videoId).2) ∧
    (resetVideo v).status = VideoStatus.pending ∧
    (resetVideo v).processingProgress = 0 ∧
    (resetVideo v).processingStage = Stage.queued ∧
    (resetVideo v).processingError = none ∧
    ((q.add videoId).2 = some videoId ∨ videoId ∈ (q.add videoId).1.queue) ∧
    ((processVideo videoId f (some (resetVideo v))).events.map
        (fun e => (e.stage, e.progress, e.status))) =
      [(Stage.extracting_metadata, 10, VideoStatus.processing),
       (Stage.generating_thumbnail, 30, VideoStatus.processing),
       (Stage.analyzing_content, 50, VideoStatus.processing),
       (Stage.analyzing_content, 55, VideoStatus.processing),
       (Stage.analyzing_content, 65, VideoStatus.processing),
       (Stage.analyzing_content, 75, VideoStatus.processing),
       (Stage.analyzing_content, 85, VideoStatus.processing),
       (Stage.finalizing, 90, VideoStatus.processing),
       (Stage.done, 100, VideoStatus.completed)] ∧
    (processVideo videoId f (some (resetVideo v))).success = true ∧
    ((processVideo videoId f (some (resetVideo v))).store.map
        (fun u => u.status)) = some VideoStatus.completed := by
  obtain ⟨ft, s1, s2, s3, s4, s5, eu, mr, tr, ae, mk, now⟩ := f
  subst hft h1 h2 h3 h4 h5
  exact ⟨rfl, rfl, rfl, rfl, rfl, add_enqueues q videoId, rfl, rfl, rfl⟩

/-- C7 witness: reprocessing the completed sample item through an idle
scheduler and re-running it fault-free. -/
theorem c7_witness :
    (doneVideo.status = VideoStatus.completed ∨
      doneVideo.status = VideoStatus.failed) ∧
    (reprocessRoute "v2" (some doneVideo) ProcessingQueue.init =
        (200, some (resetVideo doneVideo),
          (ProcessingQueue.init.add "v2").1, (ProcessingQueue.init.add "v2").2) ∧
      (resetVideo doneVideo).status = VideoStatus.pending ∧
      (resetVideo doneVideo).processingProgress = 0 ∧
      (resetVideo doneVideo).processingStage = Stage.queued ∧
      (resetVideo doneVideo).processingError = none ∧
      ((ProcessingQueue.init.add "v2").2 = some "v2" ∨
        "v2" ∈ (ProcessingQueue.init.add "v2").1.queue) ∧
      ((processVideo "v2" noFaults (some (resetVideo doneVideo))).events.map
          (fun e => (e.stage, e.progress, e.status))) =
        [(Stage.extracting_metadata, 10, VideoStatus.processing),
         (Stage.generating_thumbnail, 30, VideoStatus.processing),
         (Stage.analyzing_content, 50, VideoStatus.processing),
         (Stage.analyzing_content, 55, VideoStatus.processing),
         (Stage.analyzing_content, 65, VideoStatus.processing),
         (Stage.analyzing_content, 75, VideoStatus.processing),
         (Stage.analyzing_content, 85, VideoStatus.processing),
         (Stage.finalizing, 90, VideoStatus.processing),
         (Stage.done, 100, VideoStatus.completed)] ∧
      (processVideo "v2" noFaults (some (resetVideo doneVideo))).success
          = true ∧
      ((processVideo "v2" noFaults (some (resetVideo doneVideo))).store.map
          (fun u => u.status)) = some VideoStatus.completed) :=
  ⟨Or.inl rfl,
   c7_theorem "v2" noFaults doneVideo ProcessingQueue.init (Or.inl rfl)
     rfl rfl rfl rfl rfl rfl⟩

set_option maxRecDepth 100000 in
/-- C8, counterexample: the claim says `start` defaults to 0, so
`bytes=-500` on a 1000-byte completed item would yield 206 with
`Content-Range: bytes 0-500/1000`. The handler has no such default:
`parseInt('')` is `NaN`, which fails the `start >= fileSize` check, and
the stream constructor's rejection of the `NaN` bound surfaces as a 500
with no `Content-Range` header at all. -/
theorem c8_counterexample :
    (streamRoute (some doneVideo) true (List.replicate 1000 0)
      (some "bytes=-500")).status = 500 ∧
    (streamRoute (some doneVideo) true (List.replicate 1000 0)
      (some "bytes=-500")).contentRange = none ∧
    (streamRoute (some doneVideo) true (List.replicate 1000 0)
      (some "bytes=-500")).status ≠ 206 := by
  exact ⟨rfl, rfl, by decide⟩

set_option maxRecDepth 100000 in
/-- C8, amended: for a byte-range request on a completed item whose
`start` field parses (there is no default for an unparseable start), the
handler responds 416 when `start ≥ sizeBytes`; otherwise — with `end`
defaulting to `sizeBytes - 1` when the end field is empty or missing —
it responds 206 with `Content-Range: bytes <start>-<end>/<sizeBytes>`,
`Content-Length = end - start + 1`, and streams the bytes from `start`
through `end` (exactly that span whenever `end` is in bounds). In
particular `bytes=100-199` on a 1000-byte completed item yields 206,
`Content-Range: bytes 100-199/1000` and a 100-byte body, and
`bytes=2000-` yields 416. -/
theorem c8_theorem (v : Video) (file : List Nat) (r : String) (s e : Int)
    (hv : v.status = VideoStatus.completed) (hr : r ≠ "")
    (hs : rangeStart r = JsNum.int s)
    (he : rangeEnd r file.length = JsNum.int e) :
    (s ≥ (file.length : Int) →
      (streamRoute (some v) true file (some r)).status = 416) ∧
    (s < (file.length : Int) → 0 ≤ s → s ≤ e →
      (streamRoute (some v) true file (some r)).status = 206 ∧
      (streamRoute (some v) true file (some r)).contentRange =
        some ("bytes " ++ toString s ++ "-" ++ toString e ++ "/" ++
          toString file.length) ∧
      (streamRoute (some v) true file (some r)).contentLength =
        some (JsNum.int (e - s + 1)) ∧
      (streamRoute (some v) true file (some r)).body =
        some ((file.drop s.toNat).take (e - s + 1).toNat) ∧
      (e < (file.length : Int) →
        ((streamRoute (some v) true file (some r)).body.map
          (fun b => b.length)) = some (e - s + 1).toNat)) ∧
    (streamRoute (some doneVideo) true (List.replicate 1000 0)
      (some "bytes=100-199")).status = 206 ∧
    (streamRoute (some doneVideo) true (List.replicate 1000 0)
      (some "bytes=100-199")).contentRange = some "bytes 100-199/1000" ∧
    ((streamRoute (some doneVideo) true (List.replicate 1000 0)
      (some "bytes=100-199")).body.map (fun b => b.length)) = some 100 ∧
    (streamRoute (some doneVideo) true (List.replicate 1000 0)
      (some "bytes=2000-")).status = 416 := by
  refine ⟨?_, ?_, rfl, rfl, rfl, rfl⟩
  · intro hge
    have hd : ((file.length : Int) ≤ s) := hge
    simp [streamRoute, hv, hr, hs, JsNum.geInt, hd]
  · intro hlt h0 hse
    have hd : ¬ ((file.length : Int) ≤ s) := by omega
    have he0 : (0 : Int) ≤ e := by omega
    refine ⟨?_, ?_, ?_, ?_, ?_⟩ <;>
      simp [streamRoute, hv, hr, hs, he, JsNum.geInt, hd, h0, hse, he0]
    intro hel
    omega

set_option maxRecDepth 100000 in
/-- C8 witness: the claim's own example, `bytes=100-199` on a 1000-byte
completed item. -/
theorem c8_witness :
    doneVideo.status = VideoStatus.completed ∧
    rangeStart "bytes=100-199" = JsNum.int 100 ∧
    rangeEnd "bytes=100-199" (List.replicate 1000 (0 : Nat)).length
        = JsNum.int 199 ∧
    (((100 : Int) ≥ ((List.replicate 1000 (0 : Nat)).length : Int) →
        (streamRoute (some doneVideo) true (List.replicate 1000 0)
          (some "bytes=100-199")).status = 416) ∧
      ((100 : Int) < ((List.replicate 1000 (0 : Nat)).length : Int) →
        (0 : Int) ≤ 100 → (100 : Int) ≤ 199 →
        (streamRoute (some doneVideo) true (List.replicate 1000 0)
          (some "bytes=100-199")).status = 206 ∧
        (streamRoute (some doneVideo) true (List.replicate 1000 0)
          (some "bytes=100-199")).contentRange =
          some ("bytes " ++ toString (100 : Int) ++ "-" ++
            toString (199 : Int) ++ "/" ++
            toString (List.replicate 1000 (0 : Nat)).length) ∧
        (streamRoute (some doneVideo) true (List.replicate 1000 0)
          (some "bytes=100-199")).contentLength =
          some (JsNum.int ((199 : Int) - 100 + 1)) ∧
        (streamRoute (some doneVideo) true (List.replicate 1000 0)
          (some "bytes=100-199")).body =
          some (((List.replicate 1000 (0 : Nat)).drop (100 : Int).toNat).take
            ((199 : Int) - 100 + 1).toNat) ∧
        ((199 : Int) < ((List.replicate 1000 (0 : Nat)).length : Int) →
          ((streamRoute (some doneVideo) true (List.replicate 1000 0)
            (some "bytes=100-199")).body.map (fun b => b.length)) =
            some ((199 : Int) - 100 + 1).toNat)) ∧
      (streamRoute (some doneVideo) true (List.replicate 1000 0)
        (some "bytes=100-199")).status = 206 ∧
      (streamRoute (some doneVideo) true (List.replicate 1000 0)
        (some "bytes=100-199")).contentRange = some "bytes 100-199/1000" ∧
      ((streamRoute (some doneVideo) true (List.replicate 1000 0)
        (some "bytes=100-199")).body.map (fun b => b.length)) = some 100 ∧
      (streamRoute (some doneVideo) true (List.replicate 1000 0)
        (some "bytes=2000-")).status = 416) :=
  ⟨rfl, rfl, rfl,
   c8_theorem doneVideo (List.replicate 1000 0) "bytes=100-199" 100 199
     rfl (by decide) rfl rfl⟩

set_option maxRecDepth 100000 in
/-- C9, counterexample: a malformed range header (`bytes=abc-`, whose
start is not a parseable non-negative integer) on a 1000-byte completed
item does not get a 416: the `NaN` start fails the `start >= fileSize`
comparison, the handler proceeds past the 416 branch, and the stream
constructor's rejection of the `NaN` bound surfaces as a 500. -/
theorem c9_counterexample :
    (streamRoute (some doneVideo) true (List.replicate 1000 0)
      (some "bytes=abc-")).status = 500 ∧
    (streamRoute (some doneVideo) true (List.replicate 1000 0)
      (some "bytes=abc-")).status ≠ 416 := by
  exact ⟨rfl, by decide⟩

/-- C9, amended: out-of-bounds ranges — those whose start parses to an
integer `≥ sizeBytes` — are answered with 416; a malformed range, whose
start parses to `NaN`, instead escapes the `start >= fileSize` check and
is answered with 500 (never 416), because `fs.createReadStream` rejects
the `NaN` bound and the route's catch takes over. -/
theorem c9_theorem (v : Video) (file : List Nat) (r : String) (s : Int)
    (hv : v.status = VideoStatus.completed) (hr : r ≠ "") :
    (rangeStart r = JsNum.nan →
      (streamRoute (some v) true file (some r)).status = 500 ∧
      (streamRoute (some v) true file (some r)).status ≠ 416) ∧
    (rangeStart r = JsNum.int s → s ≥ (file.length : Int) →
      (streamRoute (some v) true file (some r)).status = 416) := by
  constructor
  · intro hn
    constructor <;> simp [streamRoute, hv, hr, hn, JsNum.geInt]
  · intro hs hge
    have hd : ((file.length : Int) ≤ s) := hge
    simp [streamRoute, hv, hr, hs, JsNum.geInt, hd]

set_option maxRecDepth 100000 in
/-- C9 witness: `bytes=500-` with start 500 on an empty 0-byte item is
out of bounds and yields 416; the malformed branch is exercised by the
separate counterexample input. -/
theorem c9_witness :
    doneVideo.status = VideoStatus.completed ∧
    rangeStart "bytes=500-" = JsNum.int 500 ∧
    ((rangeStart "bytes=500-" = JsNum.nan →
        (streamRoute (some doneVideo) true [] (some "bytes=500-")).status
            = 500 ∧
        (streamRoute (some doneVideo) true [] (some "bytes=500-")).status
            ≠ 416) ∧
      (rangeStart "bytes=500-" = JsNum.int 500 →
        (500 : Int) ≥ (([] : List Nat).length : Int) →
        (streamRoute (some doneVideo) true [] (some "bytes=500-")).status
            = 416)) :=
  ⟨rfl, rfl, c9_theorem doneVideo [] "bytes=500-" 500 rfl (by decide)⟩

/-- C10: on a completed item, a range whose parsed start is in bounds but
whose explicit parsed end is at or past the end of the file is not
clamped: the response is 206, the `Content-Range` end is the requested
`end` (exceeding the last valid byte offset `sizeBytes - 1`), and the
`Content-Length` of `end - start + 1` exceeds the `sizeBytes - start`
bytes the file can actually supply — the streamed body is shorter than
the advertised length. -/
theorem c10_theorem (v : Video) (file : List Nat) (r : String) (s e : Int)
    (hv : v.status = VideoStatus.completed) (hr : r ≠ "")
    (hs : rangeStart r = JsNum.int s)
    (he : rangeEnd r file.length = JsNum.int e)
    (hlt : s < (file.length : Int)) (h0 : 0 ≤ s)
    (hge : e ≥ (file.length : Int)) :
    (streamRoute (some v) true file (some r)).status = 206 ∧
    (streamRoute (some v) true file (some r)).contentRange =
      some ("bytes " ++ toString s ++ "-" ++ toString e ++ "/" ++
        toString file.length) ∧
    e > (file.length : Int) - 1 ∧
    (streamRoute (some v) true file (some r)).contentLength =
      some (JsNum.int (e - s + 1)) ∧
    e - s + 1 > (file.length : Int) - s ∧
    ((streamRoute (some v) true file (some r)).body.map
        (fun b => b.length)) = some (file.length - s.toNat) ∧
    ((file.length - s.toNat : Int)) < e - s + 1 := by
  have hd : ¬ ((file.length : Int) ≤ s) := by omega
  have hse : s ≤ e := by omega
  have he0 : (0 : Int) ≤ e := by omega
  refine ⟨?_, ?_, by omega, ?_, by omega, ?_, by omega⟩ <;>
    simp [streamRoute, hv, hr, hs, he, JsNum.geInt, hd, h0, hse, he0]
  omega

set_option maxRecDepth 100000 in
/-- C10 witness: `bytes=100-1200` on a 1000-byte completed item:
206 with `Content-Range: bytes 100-1200/1000`, advertised length 1101,
actual body length 900. -/
theorem c10_witness :
    doneVideo.status = VideoStatus.completed ∧
    rangeStart "bytes=100-1200" = JsNum.int 100 ∧
    rangeEnd "bytes=100-1200" (List.replicate 1000 (0 : Nat)).length
        = JsNum.int 1200 ∧
    ((streamRoute (some doneVideo) true (List.replicate 1000 0)
        (some "bytes=100-1200")).status = 206 ∧
      (streamRoute (some doneVideo) true (List.replicate 1000 0)
        (some "bytes=100-1200")).contentRange =
        some ("bytes " ++ toString (100 : Int) ++ "-" ++
          toString (1200 : Int) ++ "/" ++
          toString (List.replicate 1000 (0 : Nat)).length) ∧
      (1200 : Int) > ((List.replicate 1000 (0 : Nat)).length : Int) - 1 ∧
      (streamRoute (some doneVideo) true (List.replicate 1000 0)
        (some "bytes=100-1200")).contentLength =
        some (JsNum.int ((1200 : Int) - 100 + 1)) ∧
      (1200 : Int) - 100 + 1 >
        ((List.replicate 1000 (0 : Nat)).length : Int) - 100 ∧
      ((streamRoute (some doneVideo) true (List.replicate 1000 0)
          (some "bytes=100-1200")).body.map (fun b => b.length)) =
        some ((List.replicate 1000 (0 : Nat)).length - (100 : Int).toNat) ∧
      (((List.replicate 1000 (0 : Nat)).length - (100 : Int).toNat : Int))
          < (1200 : Int) - 100 + 1) :=
  ⟨rfl, rfl, rfl,
   c10_theorem doneVideo (List.replicate 1000 0) "bytes=100-1200" 100 1200
     rfl (by decide) rfl rfl (by decide) (by decide) (by decide)⟩
